import Mathlib

/-!
Verification of the session and authentication lifecycle of the
smart-pump-frontend client.

The development shallowly embeds the code that the claims are about:

- src/types/index.ts : the User record, the LoginFormSchema, the
  ApiResponse envelope and the HttpError shape;
- src/services/api.ts : the ApiService transport wrapper (request and
  response interceptors, the 401 refresh-and-replay path, getCsrfToken,
  login, logout, refreshToken, changePassword, setAuthToken,
  clearAuthToken);
- src/stores/dashboardUIStore.ts (second store in the file) : the pure
  client auth store (setAuthState, clearAuth, updateUser) and its
  persisted subset;
- src/stores/authStore.ts : the legacy store (login, logout,
  validateToken) and the persist middleware partialize function;
- the auth hooks (useLogin, useLogout, useValidateToken) from the
  unnamed hook module (part_003) and hooks/useBalance.ts.

Network traffic is modelled by passing each remote endpoint response as
an explicit parameter: a value of RawResp is what the axios promise for
one attempt of one request settles to.  Effects on the transport
singleton and on the store are explicit state passing.  Remote calls
performed by an operation are collected in a trace of Endpoint tags.
-/

/-! ## Data model (src/types/index.ts) -/

/-- Nested name record of the UserSchema. -/
structure UserName where
  first : String
  last : String
deriving DecidableEq, Repr

/-- The User record of UserSchema in src/types/index.ts. -/
structure User where
  _id : String
  guid : String
  isActive : Bool
  balance : String
  picture : String
  age : Nat
  eyeColor : String
  name : UserName
  company : String
  email : String
  phone : String
  address : String
deriving DecidableEq, Repr

/-- LoginFormData: the email and password pair of LoginFormSchema. -/
structure LoginFormData where
  email : String
  password : String
deriving DecidableEq, Repr

/-- Split a character list at every occurrence of a separator. -/
def splitOnChar : List Char → Char → List (List Char)
  | [], _ => [[]]
  | c :: cs, sep =>
      if c = sep then [] :: splitOnChar cs sep
      else
        match splitOnChar cs sep with
        | [] => [[c]]
        | h :: t => (c :: h) :: t

/-- Modelled from the spec: acceptance by the client-side login schema.
The source (LoginFormSchema in src/types/index.ts) requires the password
to have at least 8 characters and delegates email validity to an external
validation library that is not part of this repository; the email check is
modelled as a nonempty local part and a dotted nonempty domain around a
single at-sign, which accepts the canonical credentials of the spec. -/
def loginSchemaAccepts (c : LoginFormData) : Bool :=
  (match splitOnChar c.email.data '@' with
   | [l, d] => !l.isEmpty && !d.isEmpty && d.contains '.'
   | _ => false) &&
  decide (c.password.length ≥ 8)

/-- AuthResponse: payload of a successful POST /auth/login. -/
structure AuthResponse where
  user : User
  accessToken : String
  csrfToken : String
deriving DecidableEq, Repr

/-- Payload of a successful POST /auth/refresh. -/
structure RefreshData where
  accessToken : String
  user : User
deriving DecidableEq, Repr

/-- Payload of a successful GET /auth/csrf-token. -/
structure CsrfData where
  csrfToken : String
deriving DecidableEq, Repr

/-! ## Session stores -/

/-- AuthClientState: the pure client auth store state of the second store
in src/stores/dashboardUIStore.ts (user, isAuthenticated, csrfToken). -/
structure AuthClientState where
  user : Option User
  isAuthenticated : Bool
  csrfToken : Option String
deriving DecidableEq, Repr

/-- INITIAL_STATE of the pure client auth store. -/
def authClientInitialState : AuthClientState :=
  { user := none, isAuthenticated := false, csrfToken := none }

/-- A partial update passed to setAuthState; a field that is none is left
untouched by the shallow merge. -/
structure AuthStateUpdate where
  user : Option (Option User) := none
  isAuthenticated : Option Bool := none
  csrfToken : Option (Option String) := none

/-- setAuthState of the pure client auth store: shallow merge of the given
fields into the current state. -/
def setAuthState (s : AuthClientState) (p : AuthStateUpdate) : AuthClientState :=
  { user := p.user.getD s.user
    isAuthenticated := p.isAuthenticated.getD s.isAuthenticated
    csrfToken := p.csrfToken.getD s.csrfToken }

/-- clearAuth of the pure client auth store: reset to INITIAL_STATE. -/
def clearAuth (_s : AuthClientState) : AuthClientState :=
  authClientInitialState

/-- updateUser of the pure client auth store: replace the user only. -/
def updateUser (s : AuthClientState) (u : User) : AuthClientState :=
  { s with user := some u }

/-- AuthState of src/types/index.ts: the legacy store state held by
src/stores/authStore.ts, with loading and error fields. -/
structure AuthState where
  user : Option User
  isAuthenticated : Bool
  isLoading : Bool
  error : Option String
  csrfToken : Option String
deriving DecidableEq, Repr

/-- INITIAL_STATE of src/stores/authStore.ts. -/
def authInitialState : AuthState :=
  { user := none, isAuthenticated := false, isLoading := false
    error := none, csrfToken := none }

/-! ## Persistence (persist middleware of authStore.ts) -/

/-- The persisted subset produced by the partialize function of the
persist middleware: only user, isAuthenticated and csrfToken. -/
structure PersistedAuth where
  user : Option User
  isAuthenticated : Bool
  csrfToken : Option String
deriving DecidableEq, Repr

/-- partialize of src/stores/authStore.ts lines 234-240: keep only user,
isAuthenticated and csrfToken; loading state and errors are dropped. -/
def partializeAuth (s : AuthState) : PersistedAuth :=
  { user := s.user, isAuthenticated := s.isAuthenticated, csrfToken := s.csrfToken }

/-- Rehydration: the persist middleware default merge spreads the stored
subset over the initial state, so loading and error come back at their
initial values. -/
def rehydrateAuth (p : PersistedAuth) : AuthState :=
  { authInitialState with
      user := p.user, isAuthenticated := p.isAuthenticated, csrfToken := p.csrfToken }

/-- A JSON value, as produced by the JSON storage of the persist
middleware.  Numbers are modelled as naturals, enough for the age field
of the persisted user record. -/
inductive Json where
  | null : Json
  | bool (b : Bool) : Json
  | num (n : Nat) : Json
  | str (s : String) : Json
  | obj (fields : List (String × Json)) : Json

/-- Keys of a JSON object. -/
def jsonKeys : Json → List String
  | .obj fields => fields.map Prod.fst
  | _ => []

/-- Serialize a User record to JSON, field for field in source order. -/
def encodeUser (u : User) : Json :=
  .obj [("_id", .str u._id), ("guid", .str u.guid), ("isActive", .bool u.isActive),
        ("balance", .str u.balance), ("picture", .str u.picture), ("age", .num u.age),
        ("eyeColor", .str u.eyeColor),
        ("name", .obj [("first", .str u.name.first), ("last", .str u.name.last)]),
        ("company", .str u.company), ("email", .str u.email),
        ("phone", .str u.phone), ("address", .str u.address)]

/-- Parse a User record back from the JSON produced by encodeUser. -/
def decodeUser : Json → Option User
  | .obj [("_id", .str i), ("guid", .str g), ("isActive", .bool a),
          ("balance", .str b), ("picture", .str p), ("age", .num ag),
          ("eyeColor", .str ec),
          ("name", .obj [("first", .str f), ("last", .str l)]),
          ("company", .str c), ("email", .str em),
          ("phone", .str ph), ("address", .str ad)] =>
      some { _id := i, guid := g, isActive := a, balance := b, picture := p
             age := ag, eyeColor := ec, name := { first := f, last := l }
             company := c, email := em, phone := ph, address := ad }
  | _ => none

/-- Serialize the persisted subset to JSON, as JSON storage does on every
committed mutation. -/
def encodePersisted (p : PersistedAuth) : Json :=
  .obj [("user", match p.user with | some u => encodeUser u | none => .null),
        ("isAuthenticated", .bool p.isAuthenticated),
        ("csrfToken", match p.csrfToken with | some s => .str s | none => .null)]

/-- Parse the persisted subset back from storage at process start. -/
def decodePersisted : Json → Option PersistedAuth
  | .obj [("user", uj), ("isAuthenticated", .bool b), ("csrfToken", cj)] =>
      match uj, cj with
      | .null, .null => some { user := none, isAuthenticated := b, csrfToken := none }
      | .null, .str s => some { user := none, isAuthenticated := b, csrfToken := some s }
      | j, .null => (decodeUser j).map fun u =>
          { user := some u, isAuthenticated := b, csrfToken := none }
      | j, .str s => (decodeUser j).map fun u =>
          { user := some u, isAuthenticated := b, csrfToken := some s }
      | _, _ => none
  | _ => none

/-! ## Transport wrapper state (src/services/api.ts) -/

/-- The mutable configuration of the ApiService axios instance: the
constructor defaults (base URL, timeout, content headers, credential
inclusion), the default Authorization header managed by setAuthToken and
clearAuthToken, and the cached CSRF token. -/
structure ApiState where
  baseURL : String := "http://localhost:3001/api"
  timeoutMs : Nat := 10000
  withCredentials : Bool := true
  contentTypeHeader : String := "application/json"
  acceptHeader : String := "application/json"
  authHeader : Option String := none
  csrfToken : Option String := none
deriving DecidableEq, Repr

/-- The ApiService singleton as constructed at module load. -/
def initialApiState : ApiState := {}

/-- setAuthToken: set the default Authorization header to a bearer token. -/
def setAuthToken (api : ApiState) (token : String) : ApiState :=
  { api with authHeader := some ("Bearer " ++ token) }

/-- clearAuthToken: delete the default Authorization header and reset the
cached CSRF token (src/services/api.ts lines 375-378). -/
def clearAuthToken (api : ApiState) : ApiState :=
  { api with authHeader := none, csrfToken := none }

/-- Truthiness of an optional string under the JavaScript guards of the
source: absent and empty strings are falsy. -/
def strTruthy : Option String → Bool
  | none => false
  | some s => decide (s ≠ "")

/-! ## Response envelope, errors and raw transport outcomes -/

/-- The ApiResponse envelope of src/types/index.ts: success, message and
an optional typed data payload.  The optional error and details fields
are never read by the code under verification and are omitted.  Note the
envelope has no status field: the HTTP status is not part of the body. -/
structure Envelope (α : Type) where
  success : Bool
  message : String
  data : Option α
deriving DecidableEq, Repr

/-- An untyped response body as remembered on an HttpError: the envelope
with the data payload erased (no claim reads the payload of an error
body, only its message is consulted, and a status field that the
envelope does not define). -/
structure RespBody where
  success : Bool
  message : String
deriving DecidableEq, Repr

/-- The HttpError produced by createHttpError: a message, the HTTP status
when a response was received, and the response body. -/
structure HttpError where
  message : String
  status : Option Nat
  response : Option RespBody
deriving DecidableEq, Repr

/-- Reading the status key of an ApiResponse envelope, as the hook module
does with httpError.response?.status: the envelope (ApiResponse in
src/types/index.ts) defines no status field, so the read yields the
JavaScript undefined, modelled as none. -/
def respBodyStatusField (_b : RespBody) : Option Nat := none

/-- What the axios promise of one attempt of one request settles to:
fulfilled with a 2xx envelope, or rejected with an optional HTTP status
(none models a network error without response) and optional body. -/
inductive RawResp (α : Type) where
  | fulfilled (env : Envelope α)
  | rejected (status : Option Nat) (body : Option RespBody)

/-- Fallback string choice of the source, where a JavaScript or-else
falls through on the empty string. -/
def ifEmptyStr (s d : String) : String :=
  if s = "" then d else s

/-- createHttpError applied to an axios rejection (src/services/api.ts
lines 114-123): message from the body when present, status from the
response, body remembered.  The axios-native message fallback is folded
to a fixed string; no claim inspects message text of transport errors. -/
def mkHttpError (status : Option Nat) (body : Option RespBody) : HttpError :=
  { message := match body with
      | some b => ifEmptyStr b.message "An error occurred"
      | none => "An error occurred"
    status := status
    response := body }

/-- createHttpError applied to a thrown plain Error inside an ApiService
method: no response, no status, the thrown message. -/
def thrownError (msg : String) : HttpError :=
  { message := msg, status := none, response := none }

/-- createHttpError applied to an error that is already an HttpError, as
happens in every catch block of the public ApiService methods: the code
reads error.response?.status and error.response?.data, but the response
field of an HttpError holds the ApiResponse envelope, which has neither
a status nor a nested data.message, so the re-wrapped error keeps only
the message and loses the HTTP status and the body. -/
def rewrapHttpError (e : HttpError) : HttpError :=
  { message := e.message, status := none, response := none }

/-! ## Request interceptor (src/services/api.ts lines 46-68) -/

/-- The slice of an outgoing request configuration the request
interceptor touches: the method, the X-CSRF-Token header entry, and the
cache-busting timestamp parameter added to the query string. -/
structure ReqConfig where
  method : Option String
  xCsrfToken : Option String
  tParam : Option Nat
deriving DecidableEq, Repr

/-- ASCII lowercase conversion, modelling the toLowerCase call on the
method string; structurally recursive over the character list so that
concrete instances evaluate. -/
def strToLower (s : String) : String :=
  ⟨s.data.map Char.toLower⟩

/-- The state-changing verbs that receive the X-CSRF-Token header. -/
def stateChangingMethods : List String := ["post", "put", "delete", "patch"]

/-- The request interceptor: attach the cached CSRF token to
state-changing requests, and add a timestamp parameter to GET requests
for cache busting.  The now argument models Date.now(). -/
def requestInterceptor (api : ApiState) (cfg : ReqConfig) (now : Nat) : ReqConfig :=
  let lower := strToLower (cfg.method.getD "")
  let cfg1 :=
    if strTruthy api.csrfToken && stateChangingMethods.contains lower then
      { cfg with xCsrfToken := api.csrfToken }
    else cfg
  if lower = "get" then { cfg1 with tParam := some now } else cfg1

/-! ## Response interceptor and the 401 refresh-and-replay path -/

/-- Remote endpoints reached during the modelled flows; a trace of these
tags records the calls an operation makes. -/
inductive Endpoint where
  | csrfGet
  | loginPost
  | logoutPost
  | refreshPost
  | validateGet
  | changePasswordPost
  | profileGet
deriving DecidableEq, Repr

/-- Fulfilled-response interceptor (src/services/api.ts lines 71-85):
when the data payload carries a csrfToken field, cache it.  The extract
argument models the dynamic field lookup on the typed payload. -/
def applyRespIntercept {α : Type} (extract : α → Option String)
    (env : Envelope α) (api : ApiState) : ApiState :=
  match env.data with
  | some d =>
      match extract d with
      | some t => { api with csrfToken := some t }
      | none => api
  | none => api

/-- refreshToken of ApiService (src/services/api.ts lines 187-204): POST
/auth/refresh, fail on an unsuccessful envelope, and install the fresh
bearer token when one is present (the empty string is falsy and skips
installation).  The refresh POST is modelled as a single raw attempt: on
every fulfilled answer and every rejection with a status other than 401
this is exactly what the source does.  A 401 answer to the refresh POST
itself would instead re-enter the interceptor recursively in the source
with a fresh configuration and issue further refresh POSTs without
settling.  Theorems that quantify over this argument assert per-request
properties of the intercepted request (its own refresh call is awaited
once whatever that call does), and every concrete input of a witness or
counterexample answers the refresh POST with a fulfilled envelope or a
non-401 rejection, where the model and the source agree exactly. -/
def refreshTokenCall (api : ApiState) (refreshResp : RawResp RefreshData) :
    Except HttpError Unit × ApiState :=
  match refreshResp with
  | .fulfilled env =>
      if env.success then
        match env.data with
        | some d =>
            if d.accessToken = "" then (.ok (), api)
            else (.ok (), setAuthToken api d.accessToken)
        | none => (.error (thrownError (ifEmptyStr env.message "Token refresh failed")), api)
      else (.error (thrownError (ifEmptyStr env.message "Token refresh failed")), api)
  | .rejected st body => (.error (mkHttpError st body), api)

/-- Outcome of sending one request through the interceptor stack: the
settled result, the transport state, the trace of remote calls, how many
token refreshes the 401 path attempted, how many times the original
request was replayed, and whether the failed-refresh path forced
navigation to the login route. -/
structure CallResult (α : Type) where
  result : Except HttpError (Envelope α)
  api : ApiState
  calls : List Endpoint
  refreshAttempts : Nat
  replays : Nat
  redirected : Bool

/-- The replayed attempt of a request: its configuration carries the
_retry flag already set, so the response interceptor condition
status 401 and not retried is false and a second 401 is rejected without
a second refresh (src/services/api.ts lines 90-94). -/
def runRequestRetried {α : Type} (ep : Endpoint) (send : Bool → RawResp α)
    (extract : α → Option String) (api : ApiState) : CallResult α :=
  match send true with
  | .fulfilled env =>
      { result := .ok env, api := applyRespIntercept extract env api
        calls := [ep], refreshAttempts := 0, replays := 0, redirected := false }
  | .rejected st body =>
      { result := .error (mkHttpError st body), api := api
        calls := [ep], refreshAttempts := 0, replays := 0, redirected := false }

/-- One request through the interceptor stack (src/services/api.ts lines
86-111).  The send argument gives the raw outcome of each attempt, with
the boolean the _retry flag of the attempt configuration: a first 401
marks the request retried, attempts one token refresh, and on refresh
success replays the request once; a failed refresh redirects to the
login route and rejects. -/
def runRequest {α : Type} (ep : Endpoint) (send : Bool → RawResp α)
    (extract : α → Option String) (refreshResp : RawResp RefreshData)
    (api : ApiState) : CallResult α :=
  match send false with
  | .fulfilled env =>
      { result := .ok env, api := applyRespIntercept extract env api
        calls := [ep], refreshAttempts := 0, replays := 0, redirected := false }
  | .rejected st body =>
      if st = some 401 then
        match refreshTokenCall api refreshResp with
        | (.ok _, api1) =>
            let r := runRequestRetried ep send extract api1
            { result := r.result, api := r.api
              calls := [ep, .refreshPost] ++ r.calls
              refreshAttempts := 1 + r.refreshAttempts
              replays := 1 + r.replays, redirected := r.redirected }
        | (.error e, api1) =>
            { result := .error { message := e.message, status := none, response := none }
              api := api1, calls := [ep, .refreshPost]
              refreshAttempts := 1, replays := 0, redirected := true }
      else
        { result := .error (mkHttpError st body), api := api
          calls := [ep], refreshAttempts := 0, replays := 0, redirected := false }

/-! ## ApiService operations -/

/-- getCsrfToken (src/services/api.ts lines 126-141): GET the CSRF
endpoint through the interceptor stack, cache and return the token on a
successful envelope with a truthy token, throw otherwise; transport
rejections are re-wrapped by the catch. -/
def getCsrfToken (api : ApiState) (csrfResp : Bool → RawResp CsrfData)
    (refreshResp : RawResp RefreshData) :
    Except HttpError String × ApiState × List Endpoint :=
  let r := runRequest .csrfGet csrfResp (fun d => some d.csrfToken) refreshResp api
  match r.result with
  | .ok env =>
      if env.success then
        match env.data with
        | some d =>
            if d.csrfToken = "" then
              (.error (rewrapHttpError (thrownError "Failed to get CSRF token")), r.api, r.calls)
            else
              (.ok d.csrfToken, { r.api with csrfToken := some d.csrfToken }, r.calls)
        | none =>
            (.error (rewrapHttpError (thrownError "Failed to get CSRF token")), r.api, r.calls)
      else
        (.error (rewrapHttpError (thrownError "Failed to get CSRF token")), r.api, r.calls)
  | .error e => (.error (rewrapHttpError e), r.api, r.calls)

/-- Outcome of the login call: the settled promise, the transport state
and the trace of remote calls. -/
structure LoginCallOutcome where
  result : Except HttpError AuthResponse
  api : ApiState
  calls : List Endpoint

/-- login of ApiService (src/services/api.ts lines 144-173): fetch a CSRF
token first unconditionally, then POST the credentials; fail on an
unsuccessful envelope or missing payload; cache the csrfToken of the
returned payload; the catch re-wraps every error.  The credentials are
the POST body and do not influence the client-side control flow. -/
def apiLogin (api : ApiState) (_credentials : LoginFormData)
    (csrfResp : Bool → RawResp CsrfData) (loginResp : Bool → RawResp AuthResponse)
    (refreshResp : RawResp RefreshData) : LoginCallOutcome :=
  match getCsrfToken api csrfResp refreshResp with
  | (.error e, api1, c1) => { result := .error (rewrapHttpError e), api := api1, calls := c1 }
  | (.ok _, api1, c1) =>
      let r := runRequest .loginPost loginResp (fun d => some d.csrfToken) refreshResp api1
      match r.result with
      | .error e => { result := .error (rewrapHttpError e), api := r.api, calls := c1 ++ r.calls }
      | .ok env =>
          if env.success then
            match env.data with
            | some d =>
                { result := .ok d, api := { r.api with csrfToken := some d.csrfToken }
                  calls := c1 ++ r.calls }
            | none =>
                { result := .error (rewrapHttpError (thrownError (ifEmptyStr env.message "Login failed")))
                  api := r.api, calls := c1 ++ r.calls }
          else
            { result := .error (rewrapHttpError (thrownError (ifEmptyStr env.message "Login failed")))
              api := r.api, calls := c1 ++ r.calls }

/-- logout of ApiService (src/services/api.ts lines 175-185): POST the
logout endpoint, and reset the cached CSRF token whether the call
settles successfully or not; no error escapes (the catch only warns). -/
def apiLogout (api : ApiState) (logoutResp : Bool → RawResp Unit)
    (refreshResp : RawResp RefreshData) : ApiState × List Endpoint :=
  let r := runRequest .logoutPost logoutResp (fun _ => none) refreshResp api
  ({ r.api with csrfToken := none }, r.calls)

/-- changePassword of ApiService (src/services/api.ts lines 222-239):
when no CSRF token is cached (absent or empty, both falsy), fetch one
first; then POST the change and fail on an unsuccessful envelope. -/
def apiChangePassword (api : ApiState) (csrfResp : Bool → RawResp CsrfData)
    (cpResp : Bool → RawResp Unit) (refreshResp : RawResp RefreshData) :
    Except HttpError Unit × ApiState × List Endpoint :=
  let step1 : Except HttpError Unit × ApiState × List Endpoint :=
    if strTruthy api.csrfToken then (.ok (), api, [])
    else
      match getCsrfToken api csrfResp refreshResp with
      | (.ok _, a, c) => (.ok (), a, c)
      | (.error e, a, c) => (.error e, a, c)
  match step1 with
  | (.error e, a, c) => (.error (rewrapHttpError e), a, c)
  | (.ok _, a, c) =>
      let r := runRequest .changePasswordPost cpResp (fun _ => none) refreshResp a
      match r.result with
      | .error e => (.error (rewrapHttpError e), r.api, c ++ r.calls)
      | .ok env =>
          if env.success then (.ok (), r.api, c ++ r.calls)
          else
            (.error (rewrapHttpError (thrownError (ifEmptyStr env.message "Password change failed")))
             , r.api, c ++ r.calls)

/-! ## Session operations layer (auth hooks) -/

/-- Outcome of the login mutation: the settled mutation, the session
store, the transport state and the trace of remote calls. -/
structure LoginMutateOutcome where
  result : Except HttpError AuthResponse
  store : AuthClientState
  api : ApiState
  calls : List Endpoint

/-- The useLogin mutation of the hook module (part_003 lines 21-53): run
ApiService.login; on success install the returned bearer token (when
truthy) and store the user, the authenticated flag and the returned CSRF
token; on error store the empty session and let the mutation reject. -/
def useLoginMutate (store : AuthClientState) (api : ApiState)
    (credentials : LoginFormData) (csrfResp : Bool → RawResp CsrfData)
    (loginResp : Bool → RawResp AuthResponse) (refreshResp : RawResp RefreshData) :
    LoginMutateOutcome :=
  let r := apiLogin api credentials csrfResp loginResp refreshResp
  match r.result with
  | .ok d =>
      { result := .ok d
        store := setAuthState store
          { user := some (some d.user), isAuthenticated := some true
            csrfToken := some (some d.csrfToken) }
        api := if d.accessToken = "" then r.api else setAuthToken r.api d.accessToken
        calls := r.calls }
  | .error e =>
      { result := .error e
        store := setAuthState store
          { user := some none, isAuthenticated := some false, csrfToken := some none }
        api := r.api
        calls := r.calls }

/-- The useLogout mutation (part_003 lines 56-82): best-effort remote
logout with the error swallowed, then on settlement clear the query
cache, clear the session store and clear the transport tokens.  The
function is total: no error is propagated to the caller. -/
def useLogoutMutate (store : AuthClientState) (api : ApiState)
    (logoutResp : Bool → RawResp Unit) (refreshResp : RawResp RefreshData) :
    AuthClientState × ApiState × List Endpoint :=
  let p := apiLogout api logoutResp refreshResp
  (clearAuth store, clearAuthToken p.1, p.2)

/-- logout of the legacy store (src/stores/authStore.ts lines 81-100):
best-effort remote logout, then in the finally block reset the store to
INITIAL_STATE and clear the transport tokens; total, no error escapes. -/
def storeLogout (_s : AuthState) (api : ApiState)
    (logoutResp : Bool → RawResp Unit) (refreshResp : RawResp RefreshData) :
    AuthState × ApiState :=
  let p := apiLogout api logoutResp refreshResp
  (authInitialState, clearAuthToken p.1)

/-- The error-handling effect of useValidateToken (part_003 lines
143-163): when the validation query failed while the store says
authenticated, read httpError.response?.status and clear the session
store and the transport tokens when it is 401 or 403.  The response
field of an HttpError holds the ApiResponse envelope, which defines no
status field, so respBodyStatusField models the read. -/
def useValidateTokenClearEffect (store : AuthClientState) (api : ApiState)
    (queryError : Option HttpError) : AuthClientState × ApiState :=
  match queryError with
  | none => (store, api)
  | some e =>
      if store.isAuthenticated then
        match e.response.bind respBodyStatusField with
        | some 401 => (clearAuth store, clearAuthToken api)
        | some 403 => (clearAuth store, clearAuthToken api)
        | _ => (store, api)
      else (store, api)

/-! ## Sample values for concrete evaluations -/

/-- A concrete user record in the shape of the seed data. -/
def sampleUser : User :=
  { _id := "5410953eb0e0c0ae25608277"
    guid := "eab0324c-75ef-49a1-9c49-be2d68f50b96"
    isActive := true
    balance := "3585.69"
    picture := "https://example.com/32x32"
    age := 30
    eyeColor := "blue"
    name := { first := "John", last := "Doe" }
    company := "YURIA"
    email := "john.doe@example.com"
    phone := "+1 (433) 497-2220"
    address := "880 Vandervoort Place, Kenvil, New Jersey, 9189"
    }

/-- The canonical credentials of the spec scenario. -/
def sampleCred : LoginFormData :=
  { email := "john.doe@example.com", password := "password123" }

/-! ## Characterization lemmas for the interceptor pipeline -/

/-- A fulfilled first attempt passes straight through the 401 path. -/
theorem runRequest_fulfilled_eq {α : Type} {send : Bool → RawResp α} {env : Envelope α}
    (ep : Endpoint) (extract : α → Option String) (rr : RawResp RefreshData)
    (api : ApiState) (h : send false = .fulfilled env) :
    runRequest ep send extract rr api =
      { result := .ok env, api := applyRespIntercept extract env api
        calls := [ep], refreshAttempts := 0, replays := 0, redirected := false } := by
  unfold runRequest
  rw [h]

/-- A rejection with a status other than 401 is rejected untouched. -/
theorem runRequest_rej_non401_eq {α : Type} {send : Bool → RawResp α}
    {st : Option Nat} {body : Option RespBody}
    (ep : Endpoint) (extract : α → Option String) (rr : RawResp RefreshData)
    (api : ApiState) (h : send false = .rejected st body) (h4 : st ≠ some 401) :
    runRequest ep send extract rr api =
      { result := .error (mkHttpError st body), api := api
        calls := [ep], refreshAttempts := 0, replays := 0, redirected := false } := by
  unfold runRequest
  simp only [h]
  rw [if_neg h4]

/-- A first 401 with a successful refresh replays the request once with
the retry flag set. -/
theorem runRequest_401_refresh_ok_eq {α : Type} {send : Bool → RawResp α}
    {body : Option RespBody} {api1 : ApiState}
    (ep : Endpoint) (extract : α → Option String) (rr : RawResp RefreshData)
    (api : ApiState) (h : send false = .rejected (some 401) body)
    (hrt : refreshTokenCall api rr = (.ok (), api1)) :
    runRequest ep send extract rr api =
      { result := (runRequestRetried ep send extract api1).result
        api := (runRequestRetried ep send extract api1).api
        calls := [ep, .refreshPost] ++ (runRequestRetried ep send extract api1).calls
        refreshAttempts := 1 + (runRequestRetried ep send extract api1).refreshAttempts
        replays := 1 + (runRequestRetried ep send extract api1).replays
        redirected := (runRequestRetried ep send extract api1).redirected } := by
  unfold runRequest
  simp only [h, if_true]
  rw [hrt]

/-- A first 401 with a failed refresh redirects to login and rejects. -/
theorem runRequest_401_refresh_err_eq {α : Type} {send : Bool → RawResp α}
    {body : Option RespBody} {e : HttpError} {api1 : ApiState}
    (ep : Endpoint) (extract : α → Option String) (rr : RawResp RefreshData)
    (api : ApiState) (h : send false = .rejected (some 401) body)
    (hrt : refreshTokenCall api rr = (.error e, api1)) :
    runRequest ep send extract rr api =
      { result := .error { message := e.message, status := none, response := none }
        api := api1, calls := [ep, .refreshPost]
        refreshAttempts := 1, replays := 0, redirected := true } := by
  unfold runRequest
  simp only [h, if_true]
  rw [hrt]

/-- The replayed attempt never refreshes and never replays again. -/
theorem runRequestRetried_counts {α : Type} (ep : Endpoint) (send : Bool → RawResp α)
    (extract : α → Option String) (api : ApiState) :
    (runRequestRetried ep send extract api).refreshAttempts = 0 ∧
    (runRequestRetried ep send extract api).replays = 0 ∧
    (runRequestRetried ep send extract api).calls = [ep] := by
  unfold runRequestRetried
  cases send true <;> exact ⟨rfl, rfl, rfl⟩

/-- A rejected replay is rejected as such, with no further refresh. -/
theorem runRequestRetried_rejected_eq {α : Type} {send : Bool → RawResp α}
    {st : Option Nat} {body : Option RespBody}
    (ep : Endpoint) (extract : α → Option String) (api : ApiState)
    (h : send true = .rejected st body) :
    runRequestRetried ep send extract api =
      { result := .error (mkHttpError st body), api := api
        calls := [ep], refreshAttempts := 0, replays := 0, redirected := false } := by
  unfold runRequestRetried
  rw [h]

/-- A successful envelope with a truthy token makes getCsrfToken cache
and return it after exactly one GET of the CSRF endpoint. -/
theorem getCsrfToken_ok_eq {csrfResp : Bool → RawResp CsrfData} {cenv : Envelope CsrfData}
    {cd : CsrfData} (api : ApiState) (rr : RawResp RefreshData)
    (hc : csrfResp false = .fulfilled cenv) (hcs : cenv.success = true)
    (hcd : cenv.data = some cd) (hct : cd.csrfToken ≠ "") :
    getCsrfToken api csrfResp rr =
      (.ok cd.csrfToken, { api with csrfToken := some cd.csrfToken }, [.csrfGet]) := by
  unfold getCsrfToken
  rw [runRequest_fulfilled_eq .csrfGet (fun d => some d.csrfToken) rr api hc]
  simp only [applyRespIntercept, hcd, hcs, if_true, if_neg hct]

/-! ## Claims -/

/-- Claim C1: for every request answered with HTTP 401 the transport
wrapper attempts at most one token refresh and at most one replay of
that request, and when the replayed request fails again with 401 no
second refresh is attempted for that same request: the per-request retry
flag guards the retry. -/
theorem c1_refresh_and_replay_at_most_once {α : Type} (ep : Endpoint)
    (send : Bool → RawResp α) (extract : α → Option String)
    (rr : RawResp RefreshData) (api : ApiState) :
    (runRequest ep send extract rr api).refreshAttempts ≤ 1 ∧
    (runRequest ep send extract rr api).replays ≤ 1 ∧
    (∀ body body2 api1, send false = .rejected (some 401) body →
      refreshTokenCall api rr = (.ok (), api1) →
      send true = .rejected (some 401) body2 →
      (runRequest ep send extract rr api).refreshAttempts = 1 ∧
      (runRequest ep send extract rr api).result = .error (mkHttpError (some 401) body2)) := by
  have hcounts : (runRequest ep send extract rr api).refreshAttempts ≤ 1 ∧
      (runRequest ep send extract rr api).replays ≤ 1 := by
    cases hf : send false with
    | fulfilled env =>
        rw [runRequest_fulfilled_eq ep extract rr api hf]
        exact ⟨Nat.zero_le 1, Nat.zero_le 1⟩
    | rejected st body =>
        by_cases h4 : st = some 401
        · subst h4
          rcases hrt : refreshTokenCall api rr with ⟨res, api1⟩
          cases res with
          | ok u =>
              cases u
              rw [runRequest_401_refresh_ok_eq ep extract rr api hf hrt]
              obtain ⟨h1, h2, _⟩ := runRequestRetried_counts ep send extract api1
              simp [h1, h2]
          | error e =>
              rw [runRequest_401_refresh_err_eq ep extract rr api hf hrt]
              exact ⟨Nat.le_refl 1, Nat.zero_le 1⟩
        · rw [runRequest_rej_non401_eq ep extract rr api hf h4]
          exact ⟨Nat.zero_le 1, Nat.zero_le 1⟩
  refine ⟨hcounts.1, hcounts.2, ?_⟩
  intro body body2 api1 h1 hrt h3
  rw [runRequest_401_refresh_ok_eq ep extract rr api h1 hrt,
      runRequestRetried_rejected_eq ep extract api1 h3]
  exact ⟨rfl, rfl⟩

/-- Raw outcome used by the C1 witness: every attempt of the request is
answered with HTTP 401. -/
def c1Send : Bool → RawResp Unit := fun _ => .rejected (some 401) none

/-- Refresh outcome used by the C1 witness: the refresh succeeds and
delivers a fresh bearer token. -/
def c1Refresh : RawResp RefreshData :=
  .fulfilled { success := true, message := "", data := some { accessToken := "tok2", user := sampleUser } }

/-- Witness for C1 at a concrete input: first attempt 401, refresh
succeeds, replay 401 again; exactly one refresh is attempted and the
second 401 is rejected. -/
theorem c1_refresh_and_replay_at_most_once_witness :
    (runRequest .validateGet c1Send (fun _ => none) c1Refresh initialApiState).refreshAttempts = 1 ∧
    (runRequest .validateGet c1Send (fun _ => none) c1Refresh initialApiState).result =
      .error (mkHttpError (some 401) none) :=
  (c1_refresh_and_replay_at_most_once .validateGet c1Send (fun _ => none) c1Refresh
      initialApiState).2.2 none none (setAuthToken initialApiState "tok2") rfl rfl rfl

/-- Claim C2: every execution of logout, whether the remote POST
/auth/logout settles successfully or not, leaves the session store with
user none, isAuthenticated false and csrfToken none and clears the
transport bearer and CSRF tokens; both the hook mutation and the legacy
store logout are total functions into plain states, which embeds that no
error is propagated to the caller. -/
theorem c2_logout_always_clears (store : AuthClientState) (s : AuthState) (api : ApiState)
    (logoutResp : Bool → RawResp Unit) (refreshResp : RawResp RefreshData) :
    (useLogoutMutate store api logoutResp refreshResp).1.user = none ∧
    (useLogoutMutate store api logoutResp refreshResp).1.isAuthenticated = false ∧
    (useLogoutMutate store api logoutResp refreshResp).1.csrfToken = none ∧
    (useLogoutMutate store api logoutResp refreshResp).2.1.authHeader = none ∧
    (useLogoutMutate store api logoutResp refreshResp).2.1.csrfToken = none ∧
    (storeLogout s api logoutResp refreshResp).1 = authInitialState ∧
    (storeLogout s api logoutResp refreshResp).2.authHeader = none ∧
    (storeLogout s api logoutResp refreshResp).2.csrfToken = none :=
  ⟨rfl, rfl, rfl, rfl, rfl, rfl, rfl, rfl⟩

/-- Claim C3: the clear-session branch of the useValidateToken error
effect never fires, whatever the error and its HTTP status: the effect
reads the status key of the response body envelope, which the
ApiResponse type does not define, so the session store and the transport
state always come back unchanged.  The claim that a 401 or 403 failure
clears the session is therefore contradicted by the code; the
implementation slip is that the HTTP status of an HttpError lives in its
status field, not on its response body. -/
theorem c3_validate_clear_branch_dead (store : AuthClientState) (api : ApiState)
    (queryError : Option HttpError) :
    useValidateTokenClearEffect store api queryError = (store, api) := by
  unfold useValidateTokenClearEffect
  cases queryError with
  | none => rfl
  | some e =>
      cases hr : e.response with
      | none => cases hb : store.isAuthenticated <;> simp [hr, respBodyStatusField, hb]
      | some b => cases hb : store.isAuthenticated <;> simp [hr, respBodyStatusField, hb]

/-- Claim C7: serializing the persisted subset of the session state and
rehydrating it recovers the user, isAuthenticated and csrfToken fields
exactly, and the serialized object contains exactly those three keys, so
loading and error are never persisted. -/
theorem c7_persist_roundtrip (s : AuthState) :
    decodePersisted (encodePersisted (partializeAuth s)) = some (partializeAuth s) ∧
    (rehydrateAuth (partializeAuth s)).user = s.user ∧
    (rehydrateAuth (partializeAuth s)).isAuthenticated = s.isAuthenticated ∧
    (rehydrateAuth (partializeAuth s)).csrfToken = s.csrfToken ∧
    jsonKeys (encodePersisted (partializeAuth s)) = ["user", "isAuthenticated", "csrfToken"] := by
  obtain ⟨u, a, l, err, c⟩ := s
  cases u <;> cases c <;> exact ⟨rfl, rfl, rfl, rfl, rfl⟩

/-- Claim C8: clearAuth is idempotent: applying it twice yields exactly
the same empty session as applying it once. -/
theorem c8_clearAuth_idempotent (s : AuthClientState) :
    clearAuth (clearAuth s) = clearAuth s ∧ clearAuth s = authClientInitialState :=
  ⟨rfl, rfl⟩

/-- Claim C10: the request interceptor attaches the X-CSRF-Token header
only when a truthy CSRF token is cached and the method is post, put,
delete or patch; a GET request never carries the header even when a
token is cached, and every GET request receives the cache-busting
timestamp parameter. -/
theorem c10_request_interceptor (api : ApiState) (cfg : ReqConfig) (now : Nat)
    (hnone : cfg.xCsrfToken = none) :
    ((requestInterceptor api cfg now).xCsrfToken ≠ none →
      strTruthy api.csrfToken = true ∧
      stateChangingMethods.contains (strToLower (cfg.method.getD "")) = true) ∧
    (strToLower (cfg.method.getD "") = "get" →
      (requestInterceptor api cfg now).xCsrfToken = none ∧
      (requestInterceptor api cfg now).tParam = some now) := by
  cases hcond : (strTruthy api.csrfToken &&
      stateChangingMethods.contains (strToLower (cfg.method.getD ""))) with
  | true =>
      obtain ⟨h1, h2⟩ := Bool.and_eq_true_iff.mp hcond
      refine ⟨fun _ => ⟨h1, h2⟩, ?_⟩
      intro hget
      rw [hget] at h2
      exact absurd h2 (by decide)
  | false =>
      have hred : requestInterceptor api cfg now =
          if strToLower (cfg.method.getD "") = "get" then { cfg with tParam := some now }
          else cfg := by
        simp only [requestInterceptor, hcond, Bool.false_eq_true, if_false]
      refine ⟨?_, ?_⟩
      · intro hne
        rw [hred] at hne
        by_cases hg : strToLower (cfg.method.getD "") = "get"
        · rw [if_pos hg] at hne
          exact absurd hnone hne
        · rw [if_neg hg] at hne
          exact absurd hnone hne
      · intro hget
        rw [hred, if_pos hget]
        exact ⟨hnone, rfl⟩

/-- Configuration used by the C10 witness: a GET request without a
pre-set CSRF header. -/
def c10Cfg : ReqConfig := { method := some "GET", xCsrfToken := none, tParam := none }

/-- Transport state used by the C10 witness: a CSRF token is cached. -/
def c10Api : ApiState := { initialApiState with csrfToken := some "csrf-cached" }

/-- Witness for C10 at a concrete input: a GET request with a cached
token gets no X-CSRF-Token header and does get the timestamp. -/
theorem c10_request_interceptor_witness :
    (requestInterceptor c10Api c10Cfg 5).xCsrfToken = none ∧
    (requestInterceptor c10Api c10Cfg 5).tParam = some 5 :=
  (c10_request_interceptor c10Api c10Cfg 5 rfl).2 (by decide)

/-- Every trace of one intercepted request starts with its own endpoint. -/
theorem runRequest_calls_cons {α : Type} (ep : Endpoint) (send : Bool → RawResp α)
    (extract : α → Option String) (rr : RawResp RefreshData) (api : ApiState) :
    ∃ t, (runRequest ep send extract rr api).calls = ep :: t := by
  cases hf : send false with
  | fulfilled env =>
      exact ⟨[], by rw [runRequest_fulfilled_eq ep extract rr api hf]⟩
  | rejected st body =>
      by_cases h4 : st = some 401
      · subst h4
        rcases hrt : refreshTokenCall api rr with ⟨res, api1⟩
        cases res with
        | ok u =>
            cases u
            exact ⟨.refreshPost :: (runRequestRetried ep send extract api1).calls,
              by rw [runRequest_401_refresh_ok_eq ep extract rr api hf hrt]; rfl⟩
        | error e =>
            exact ⟨[.refreshPost],
              by rw [runRequest_401_refresh_err_eq ep extract rr api hf hrt]⟩
      · exact ⟨[], by rw [runRequest_rej_non401_eq ep extract rr api hf h4]⟩

/-- The trace of getCsrfToken always starts with the CSRF GET. -/
theorem getCsrfToken_calls_head (api : ApiState) (csrfResp : Bool → RawResp CsrfData)
    (rr : RawResp RefreshData) :
    (getCsrfToken api csrfResp rr).2.2.head? = some Endpoint.csrfGet := by
  obtain ⟨t, ht⟩ := runRequest_calls_cons .csrfGet csrfResp (fun d => some d.csrfToken) rr api
  cases hres : (runRequest Endpoint.csrfGet csrfResp (fun d => some d.csrfToken) rr api).result with
  | error e =>
      simp [getCsrfToken, hres, ht]
  | ok env =>
      rcases env with ⟨suc, msg, dat⟩
      cases suc with
      | false => simp [getCsrfToken, hres, ht]
      | true =>
          rcases dat with _ | d
          · simp [getCsrfToken, hres, ht]
          · by_cases hz : d.csrfToken = "" <;> simp [getCsrfToken, hres, ht, hz]

/-- Claim C9: clearAuthToken removes the default Authorization header and
resets the cached CSRF token, leaves the base URL, timeout, credential
flag and content headers unchanged, and the next state-changing call
(changePassword here; updateProfile and deleteAccount share the same
guard) must first refetch a CSRF token: its trace starts with the CSRF
GET whatever the server answers. -/
theorem c9_clearAuthToken_frame (api : ApiState) (csrfResp : Bool → RawResp CsrfData)
    (cpResp : Bool → RawResp Unit) (refreshResp : RawResp RefreshData) :
    (clearAuthToken api).authHeader = none ∧
    (clearAuthToken api).csrfToken = none ∧
    (clearAuthToken api).baseURL = api.baseURL ∧
    (clearAuthToken api).timeoutMs = api.timeoutMs ∧
    (clearAuthToken api).withCredentials = api.withCredentials ∧
    (clearAuthToken api).contentTypeHeader = api.contentTypeHeader ∧
    (clearAuthToken api).acceptHeader = api.acceptHeader ∧
    (apiChangePassword (clearAuthToken api) csrfResp cpResp refreshResp).2.2.head? =
      some Endpoint.csrfGet := by
  refine ⟨rfl, rfl, rfl, rfl, rfl, rfl, rfl, ?_⟩
  have hhead := getCsrfToken_calls_head (clearAuthToken api) csrfResp refreshResp
  rcases hg : getCsrfToken (clearAuthToken api) csrfResp refreshResp with ⟨gres, gapi, gcalls⟩
  rw [hg] at hhead
  obtain ⟨gt, hgt⟩ : ∃ gt, gcalls = Endpoint.csrfGet :: gt := by
    cases gcalls with
    | nil => simp at hhead
    | cons a tl =>
        simp only [List.head?_cons, Option.some.injEq] at hhead
        exact ⟨tl, by rw [hhead]⟩
  subst hgt
  have hst : strTruthy (clearAuthToken api).csrfToken = false := rfl
  cases gres with
  | error e =>
      simp [apiChangePassword, hst, hg]
  | ok u =>
      cases u
      cases hres : (runRequest Endpoint.changePasswordPost cpResp (fun _ => none)
          refreshResp gapi).result with
      | error e2 =>
          simp [apiChangePassword, hst, hg, hres]
      | ok env =>
          rcases env with ⟨suc, msg, dat⟩
          cases suc <;>
            simp [apiChangePassword, hst, hg, hres]

/-- Claim C4: when the server answers the login POST with success true
and a payload of user, access token and CSRF token (and the CSRF fetch
succeeded), the session store ends as that user, authenticated, with
that CSRF token, and the transport default Authorization header is the
word Bearer followed by the returned access token.  The returned token
is assumed nonempty: the source guards the header installation with a
JavaScript truthiness check that skips the empty string. -/
theorem c4_login_success_sets_session_and_header (store : AuthClientState)
    (api : ApiState) (cred : LoginFormData) (csrfResp : Bool → RawResp CsrfData)
    (loginResp : Bool → RawResp AuthResponse) (rr : RawResp RefreshData)
    (cenv : Envelope CsrfData) (cd : CsrfData) (u : User) (tok ctok m : String)
    (hc : csrfResp false = .fulfilled cenv) (hcs : cenv.success = true)
    (hcd : cenv.data = some cd) (hct : cd.csrfToken ≠ "")
    (hl : loginResp false = .fulfilled
      { success := true, message := m
        data := some { user := u, accessToken := tok, csrfToken := ctok } })
    (htok : tok ≠ "") :
    (useLoginMutate store api cred csrfResp loginResp rr).store =
      { user := some u, isAuthenticated := true, csrfToken := some ctok } ∧
    (useLoginMutate store api cred csrfResp loginResp rr).api.authHeader =
      some ("Bearer " ++ tok) ∧
    (useLoginMutate store api cred csrfResp loginResp rr).result =
      .ok { user := u, accessToken := tok, csrfToken := ctok } := by
  have hapi : apiLogin api cred csrfResp loginResp rr =
      { result := .ok { user := u, accessToken := tok, csrfToken := ctok }
        api := { api with csrfToken := some ctok }
        calls := [.csrfGet, .loginPost] } := by
    unfold apiLogin
    rw [getCsrfToken_ok_eq api rr hc hcs hcd hct]
    simp only [runRequest_fulfilled_eq .loginPost (fun d => some d.csrfToken) rr
      { api with csrfToken := some cd.csrfToken } hl]
    rfl
  refine ⟨?_, ?_, ?_⟩ <;>
    simp [useLoginMutate, hapi, setAuthState, setAuthToken, htok]

/-- CSRF endpoint answer used by the C4 witness. -/
def c4CsrfResp : Bool → RawResp CsrfData :=
  fun _ => .fulfilled { success := true, message := "", data := some { csrfToken := "csrf-0" } }

/-- Login endpoint answer used by the C4 witness: the spec scenario
response with token tok and CSRF token csrf. -/
def c4LoginResp : Bool → RawResp AuthResponse :=
  fun _ => .fulfilled
    { success := true, message := "Login successful"
      data := some { user := sampleUser, accessToken := "tok", csrfToken := "csrf" } }

/-- Refresh endpoint answer used by the C4 witness (never reached). -/
def c4Refresh : RawResp RefreshData := .rejected none none

/-- Witness for C4 at the spec scenario: the session snapshot and the
Bearer header after a successful login. -/
theorem c4_login_success_witness :
    (useLoginMutate authClientInitialState initialApiState sampleCred
        c4CsrfResp c4LoginResp c4Refresh).store =
      { user := some sampleUser, isAuthenticated := true, csrfToken := some "csrf" } ∧
    (useLoginMutate authClientInitialState initialApiState sampleCred
        c4CsrfResp c4LoginResp c4Refresh).api.authHeader = some ("Bearer " ++ "tok") ∧
    (useLoginMutate authClientInitialState initialApiState sampleCred
        c4CsrfResp c4LoginResp c4Refresh).result =
      .ok { user := sampleUser, accessToken := "tok", csrfToken := "csrf" } :=
  c4_login_success_sets_session_and_header authClientInitialState initialApiState
    sampleCred c4CsrfResp c4LoginResp c4Refresh
    { success := true, message := "", data := some { csrfToken := "csrf-0" } }
    { csrfToken := "csrf-0" } sampleUser "tok" "csrf" "Login successful"
    rfl rfl rfl (by decide) rfl (by decide)

/-- Claim C5: whenever the login call fails, whether by transport error
or an unsuccessful envelope, the session store ends empty (user none,
not authenticated, no CSRF token) and the mutation rejects with the very
error the call produced. -/
theorem c5_login_failure_clears_and_propagates (store : AuthClientState)
    (api : ApiState) (cred : LoginFormData) (csrfResp : Bool → RawResp CsrfData)
    (loginResp : Bool → RawResp AuthResponse) (rr : RawResp RefreshData)
    (e : HttpError)
    (h : (apiLogin api cred csrfResp loginResp rr).result = .error e) :
    (useLoginMutate store api cred csrfResp loginResp rr).result = .error e ∧
    (useLoginMutate store api cred csrfResp loginResp rr).store =
      { user := none, isAuthenticated := false, csrfToken := none } := by
  refine ⟨?_, ?_⟩ <;> simp [useLoginMutate, h, setAuthState]

/-- CSRF endpoint answer used by the C5 witness: a network failure. -/
def c5CsrfResp : Bool → RawResp CsrfData := fun _ => .rejected none none

/-- Login endpoint answer used by the C5 witness (never reached). -/
def c5LoginResp : Bool → RawResp AuthResponse := fun _ => .rejected none none

/-- Refresh endpoint answer used by the C5 witness (never reached). -/
def c5Refresh : RawResp RefreshData := .rejected none none

/-- Witness for C5 at a concrete input: a network failure of the CSRF
fetch rejects the mutation and empties the session store. -/
theorem c5_login_failure_witness :
    (useLoginMutate authClientInitialState initialApiState sampleCred
        c5CsrfResp c5LoginResp c5Refresh).result =
      .error (thrownError "An error occurred") ∧
    (useLoginMutate authClientInitialState initialApiState sampleCred
        c5CsrfResp c5LoginResp c5Refresh).store =
      { user := none, isAuthenticated := false, csrfToken := none } :=
  c5_login_failure_clears_and_propagates authClientInitialState initialApiState
    sampleCred c5CsrfResp c5LoginResp c5Refresh (thrownError "An error occurred") rfl

/-- Claim C6 (amended): with no cached CSRF token, for any credentials
(in particular every pair the client-side schema accepts), when the CSRF
fetch succeeds and the login POST is not answered with HTTP 401, login
issues exactly one GET of the CSRF endpoint followed by exactly one POST
of the login endpoint and nothing else.  When the login POST is answered
401, the global response interceptor additionally attempts a token
refresh, issuing at least one refresh POST (exactly one when the refresh
POST is not itself answered 401; its own 401 re-enters the interceptor
and keeps issuing refresh POSTs without settling) and, on refresh
success, replaying the login POST; the counterexample exhibits the
single-refresh sub-case against the unamended claim. -/
theorem c6_login_call_sequence (api : ApiState) (cred : LoginFormData)
    (csrfResp : Bool → RawResp CsrfData) (loginResp : Bool → RawResp AuthResponse)
    (rr : RawResp RefreshData) (cenv : Envelope CsrfData) (cd : CsrfData)
    (_hcache : api.csrfToken = none)
    (_hacc : loginSchemaAccepts cred = true)
    (hc : csrfResp false = .fulfilled cenv) (hcs : cenv.success = true)
    (hcd : cenv.data = some cd) (hct : cd.csrfToken ≠ "")
    (hno401 : ∀ body, loginResp false ≠ .rejected (some 401) body) :
    (apiLogin api cred csrfResp loginResp rr).calls = [.csrfGet, .loginPost] := by
  unfold apiLogin
  rw [getCsrfToken_ok_eq api rr hc hcs hcd hct]
  cases hl : loginResp false with
  | fulfilled env =>
      simp only [runRequest_fulfilled_eq .loginPost (fun d => some d.csrfToken) rr
        { api with csrfToken := some cd.csrfToken } hl]
      rcases env with ⟨suc, msg, dat⟩
      cases suc <;> rcases dat with _ | d <;> rfl
  | rejected st body =>
      have h4 : st ≠ some 401 := fun hh => hno401 body (by rw [hl, hh])
      simp only [runRequest_rej_non401_eq .loginPost (fun d => some d.csrfToken) rr
        { api with csrfToken := some cd.csrfToken } hl h4]
      rfl

/-- CSRF endpoint answer used by the C6 witness. -/
def c6CsrfResp : Bool → RawResp CsrfData :=
  fun _ => .fulfilled { success := true, message := "", data := some { csrfToken := "csrf-6" } }

/-- Login endpoint answer used by the C6 witness: a plain success. -/
def c6LoginResp : Bool → RawResp AuthResponse :=
  fun _ => .fulfilled
    { success := true, message := ""
      data := some { user := sampleUser, accessToken := "tok6", csrfToken := "csrf6" } }

/-- Refresh endpoint answer used by the C6 witness (never reached). -/
def c6Refresh : RawResp RefreshData := .rejected none none

/-- Witness for the amended C6 at a concrete input: one CSRF GET then
one login POST. -/
theorem c6_login_call_sequence_witness :
    (apiLogin initialApiState sampleCred c6CsrfResp c6LoginResp c6Refresh).calls =
      [.csrfGet, .loginPost] :=
  c6_login_call_sequence initialApiState sampleCred c6CsrfResp c6LoginResp c6Refresh
    { success := true, message := "", data := some { csrfToken := "csrf-6" } }
    { csrfToken := "csrf-6" } rfl (by decide) rfl rfl rfl (by decide)
    (fun body h => RawResp.noConfusion h)

/-- CSRF endpoint answer of the C6 counterexample: succeeds. -/
def cxCsrfResp : Bool → RawResp CsrfData :=
  fun _ => .fulfilled { success := true, message := "", data := some { csrfToken := "csrf-1" } }

/-- Login endpoint answer of the C6 counterexample: HTTP 401, the answer
a server gives to schema-valid credentials with a wrong password. -/
def cxLoginResp : Bool → RawResp AuthResponse :=
  fun _ => .rejected (some 401) (some { success := false, message := "Invalid credentials" })

/-- Refresh endpoint answer of the C6 counterexample: rejected with HTTP
500, as for a server that cannot mint a token.  The status is chosen
different from 401 on purpose: a 401 answer to the refresh POST itself
would re-enter the response interceptor in the source with a fresh
configuration and issue further refresh POSTs without settling, a path
the single-attempt refresh model does not cover; with any other
rejection the source performs exactly one refresh POST and then
redirects and rejects, which the model reproduces exactly. -/
def cxRefreshResp : RawResp RefreshData :=
  .rejected (some 500) (some { success := false, message := "Token refresh failed" })

/-- Counterexample to C6 as stated: with no cached CSRF token and
schema-accepted credentials, a 401 answer to the login POST makes login
issue a third remote call, the refresh POST (here answered 500, so the
refresh settles after exactly one attempt and the wire trace of the
source is exactly this one); the trace is not one GET followed by one
POST and nothing else. -/
theorem c6_login_call_sequence_cx :
    loginSchemaAccepts sampleCred = true ∧
    initialApiState.csrfToken = none ∧
    (apiLogin initialApiState sampleCred cxCsrfResp cxLoginResp cxRefreshResp).calls =
      [.csrfGet, .loginPost, .refreshPost] ∧
    (apiLogin initialApiState sampleCred cxCsrfResp cxLoginResp cxRefreshResp).calls ≠
      [.csrfGet, .loginPost] :=
  ⟨by decide, rfl, rfl, by decide⟩
